import Mathlib

/-!
Verification of the Gauss-Newton least-squares solver core
(`optimistix/_solver/gauss_newton.py`): the `NewtonDescent` descent
strategy, the `_GaussNewtonState` record, and the
`AbstractGaussNewton.init` / `AbstractGaussNewton.step` iteration,
together with the concrete `GaussNewton` configuration.

Modelling conventions:

* Array scalars are modelled by `FV`: either a finite rational or `+inf`
  (the code stores `jnp.inf` in the initial state).  The infinite value
  absorbs arithmetic; the claims under verification never exercise
  `0 * inf`-style corner cases, so no NaN value is modelled.
* Parameter pytrees (`Y`), residual pytrees (`Out`) and auxiliary
  outputs (`Aux`) are flat lists of scalars; the elementwise `ω`
  arithmetic of the code becomes `List.map` / `List.zipWith`.
* External collaborators (the `lineax` linear solve, `jax.linearize`'s
  differentiation, and the `line_search` driver from `_line_search`)
  are opaque function parameters, consumed exactly at the interface the
  code uses.
-/

set_option autoImplicit false
set_option linter.unusedVariables false

namespace Optimistix

/-- A scalar value: a finite rational, or positive infinity (as stored by
`jnp.inf` in the solver state). -/
inductive FV where
  | fin : ℚ → FV
  | inf : FV
deriving DecidableEq

/-- Elementwise addition; infinity absorbs. -/
def fvAdd : FV → FV → FV
  | FV.fin a, FV.fin b => FV.fin (a + b)
  | _, _ => FV.inf

/-- Elementwise multiplication; infinity absorbs. -/
def fvMul : FV → FV → FV
  | FV.fin a, FV.fin b => FV.fin (a * b)
  | _, _ => FV.inf

/-- Elementwise subtraction; infinity absorbs. -/
def fvSub : FV → FV → FV
  | FV.fin a, FV.fin b => FV.fin (a - b)
  | _, _ => FV.inf

/-- Elementwise division; infinity absorbs. -/
def fvDiv : FV → FV → FV
  | FV.fin a, FV.fin b => FV.fin (a / b)
  | _, _ => FV.inf

/-- Elementwise negation (of a step size or direction component). -/
def fvNeg : FV → FV
  | FV.fin a => FV.fin (-a)
  | FV.inf => FV.inf

/-- Absolute value of a scalar. -/
def fvAbs : FV → FV
  | FV.fin a => FV.fin |a|
  | FV.inf => FV.inf

/-- Maximum of two scalars; infinity dominates. -/
def fvMax : FV → FV → FV
  | FV.fin a, FV.fin b => FV.fin (max a b)
  | _, _ => FV.inf

/-- A parameter pytree `Y`: a flat list of scalars. -/
abbrev Yv := List FV

/-- A residual pytree `Out`. -/
abbrev Outv := List FV

/-- An auxiliary output pytree `Aux`. -/
abbrev Auxv := List FV

/-- Auxiliary arguments `args` threaded through the residual function. -/
abbrev Argsv := List FV

/-- A residual function `fn : (y, args) -> (residual, aux)`. -/
abbrev ResFn := Yv → Argsv → Outv × Auxv

/-- Elementwise subtraction of pytrees, `(new_y**ω - y**ω).ω`. -/
def yvSub (a b : Yv) : Yv := List.zipWith fvSub a b

/-- Scalar multiple of a pytree (used to state norm homogeneity). -/
def fvSmul (c : ℚ) (v : Yv) : Yv := v.map (fun x => fvMul (FV.fin c) x)

/-- Modelled from the spec: `sum_squares` from `_misc` (not under `src/`)
is the sum of the squares of all scalars in the tree. -/
def sum_squares (v : Outv) : FV :=
  (v.map (fun x => fvMul x x)).foldr fvAdd (FV.fin 0)

/-- Modelled from the spec: `max_norm` from `_misc` (not under `src/`)
is the maximum-absolute-value norm. -/
def max_norm (v : Yv) : FV :=
  (v.map fvAbs).foldr fvMax (FV.fin 0)

/-- Modelled from the spec: `tree_full_like` from `_misc` (not under
`src/`) builds a tree of the same shape filled with the given scalar. -/
def tree_full_like (v : Yv) (x : FV) : Yv := v.map (fun _ => x)

/-- Modelled from the spec: the status code enumeration `RESULTS` from
`_solution` (not under `src/`): `successful`, the nonlinear step budget
exhaustion, and a fixed set of failure kinds including linear-solve
failure subkinds. -/
inductive RESULTS where
  | successful
  | nonlinear_max_steps_reached
  | nonlinear_divergence
  | linear_singular
  | linear_breakdown
deriving DecidableEq

/-- Modelled from the spec: `RESULTS.where` from `_solution` (not under
`src/`) is conditional selection between two statuses. -/
def RESULTS.where (b : Bool) (x y : RESULTS) : RESULTS :=
  if b then x else y

/-- Modelled from the spec: `RESULTS.promote` from `_solution` (not under
`src/`) injects a linear-solve collaborator status into the solver status
space, preserving it. -/
def RESULTS.promote (r : RESULTS) : RESULTS := r

/-- A linear operator (`lineax` operator), exposed as matrix-vector
apply (`mv`).  `FunctionLinearOperator lin_fn struct` wraps `lin_fn`. -/
structure Op where
  mv : List FV → List FV

/-- A pluggable linear-solver strategy: the external collaborator
`solve(operator, vector) -> (value, status)`. -/
abbrev LinSolver := Op → Outv → Yv × RESULTS

/-- The external `lx.linear_solve(operator, vector, solver)` dispatches
to the chosen solver strategy. -/
def lx_linear_solve (operator : Op) (vector : Outv) (solver : LinSolver) :
    Yv × RESULTS :=
  solver operator vector

/-- The `NewtonDescent` descent strategy: an optional norm used to
rescale the direction, and a linear-solver strategy. -/
structure NewtonDescent where
  norm : Option (Yv → FV)
  linear_solver : LinSolver

/-- The options dictionary assembled by `AbstractGaussNewton.step` and
read by the line search and the descent strategy.  `Option` fields model
dict entries that may be absent or `None` (the code's `try/except
KeyError` collapses the two for `operator` and `operator_inv`). -/
structure LSOptions where
  init_step_size : FV
  vector : Option Outv
  operator : Option Op
  operator_inv : Option Op
  f0 : FV
  aux : Auxv
  gauss_newton : Bool
  descent : NewtonDescent

/-- Lines 76-101 of `NewtonDescent.__call__`: fetch `vector` (a missing
key raises), fetch `operator_inv` and `operator` (missing keys become
`None`), then compute the unscaled direction and its status.  Raised
errors are modelled as `Except.error`. -/
def NewtonDescent.solveNewton (self : NewtonDescent) (options : LSOptions) :
    Except String (Yv × RESULTS) :=
  match options.vector with
  | none => Except.error "KeyError: vector"
  | some vector =>
    match options.operator_inv with
    | some operator_inv =>
      Except.ok (operator_inv.mv vector, RESULTS.successful)
    | none =>
      match options.operator with
      | some operator =>
        let out := lx_linear_solve operator vector self.linear_solver
        Except.ok (out.1, RESULTS.promote out.2)
      | none =>
        Except.error
          "At least one of operator or operator_inv must be passed to NewtonDescent via options."

/-- Lines 102-106 of `NewtonDescent.__call__`: optionally rescale the
direction to unit norm, then multiply elementwise by `-step_size`. -/
def NewtonDescent.scale (self : NewtonDescent) (step_size : FV) (newton : Yv) :
    Yv :=
  let diff :=
    match self.norm with
    | none => newton
    | some n => newton.map (fun x => fvDiv x (n newton))
  diff.map (fun x => fvMul (fvNeg step_size) x)

/-- `NewtonDescent.__call__(step_size, args, options)`. -/
def NewtonDescent.call (self : NewtonDescent) (step_size : FV) (args : Argsv)
    (options : LSOptions) : Except String (Yv × RESULTS) :=
  match self.solveNewton options with
  | Except.error e => Except.error e
  | Except.ok (newton, result) =>
    Except.ok (self.scale step_size newton, result)

/-- The iteration state `_GaussNewtonState`. -/
structure GaussNewtonState where
  step_size : FV
  diff : Yv
  f_val : FV
  f_prev : FV
  result : RESULTS
deriving DecidableEq

/-- Modelled from the spec: `LearningRate` from `learning_rate` (not
under `src/`) is the fixed-step-size line search; it holds its fixed
step size. -/
structure LearningRate where
  learning_rate : FV
deriving DecidableEq

/-- The value returned by the external `line_search` collaborator:
`value` (the new iterate), `result` (a status), the recommended next
initial step size `line_sol.state.next_init`, and the auxiliary output
from the accepted evaluation. -/
structure LineSol where
  value : Yv
  result : RESULTS
  next_init : FV
  aux : Auxv
deriving DecidableEq

/-- The differentiation half of `jax.linearize`: from a function and an
expansion point, the linear approximation (a matrix-free map).  Opaque
collaborator, passed in as a parameter. -/
abbrev JacFn := (Yv → Outv × Auxv) → Yv → Yv → Outv

/-- `jax.linearize(f, y, has_aux=True)` returns the primal output of `f`
at `y`, the linear map at `y`, and the auxiliary output of `f` at `y`. -/
def jax_linearize (jac : JacFn) (f : Yv → Outv × Auxv) (y : Yv) :
    Outv × (Yv → Outv) × Auxv :=
  ((f y).1, jac f y, (f y).2)

/-- The external `line_search` driver from `_line_search`, invoked with
the scalarized objective, the line-search method, `y`, `args`, the
assembled options, and `throw=False`. -/
abbrev SearchFn :=
  (Yv → Argsv → FV × Auxv) → LearningRate → Yv → Argsv → LSOptions → Bool →
    LineSol

/-- The per-solver options dict passed by the outer driver (unused by
`init` and `step`). -/
abbrev SolverOptions := List FV

/-- The `tags` frozenset passed by the outer driver. -/
abbrev Tags := List ℕ

/-- Shape/dtype structure descriptors (`jax.ShapeDtypeStruct` trees)
are modelled by their leaf count. -/
abbrev SDStruct := ℕ

/-- `_line_search_fn(fn, y, args)`: the scalarized objective
`(sum_squares(residual), aux)`. -/
def _line_search_fn (fn : ResFn) (y : Yv) (args : Argsv) : FV × Auxv :=
  let r := fn y args
  (sum_squares r.1, r.2)

/-- The abstract variables of `AbstractGaussNewton`: tolerances, norm,
descent strategy and line-search method.  The concrete `GaussNewton`
fills exactly these fields. -/
structure AbstractGaussNewton where
  rtol : ℚ
  atol : ℚ
  norm : Yv → FV
  descent : NewtonDescent
  line_search : LearningRate

/-- `AbstractGaussNewton.init`: allocates the initial state; `fn` is
never evaluated, and `options` and `aux_struct` are deleted unread. -/
def AbstractGaussNewton.init (self : AbstractGaussNewton) (fn : ResFn)
    (y : Yv) (args : Argsv) (options : SolverOptions) (f_struct : SDStruct)
    (aux_struct : SDStruct) (tags : Tags) : GaussNewtonState :=
  { step_size := FV.fin 1
    diff := tree_full_like y FV.inf
    f_val := FV.inf
    f_prev := FV.inf
    result := RESULTS.successful }

/-- Lines 186-202 of `AbstractGaussNewton.step`: linearize `fn` at `y`,
build the fresh `FunctionLinearOperator`, and assemble the line-search
options dictionary. -/
def AbstractGaussNewton.step_options (self : AbstractGaussNewton)
    (jac : JacFn) (fn : ResFn) (y : Yv) (args : Argsv)
    (state : GaussNewtonState) : LSOptions :=
  let lz := jax_linearize jac (fun _y => fn _y args) y
  { init_step_size := state.step_size
    vector := some lz.1
    operator := some ⟨lz.2.1⟩
    operator_inv := none
    f0 := sum_squares lz.1
    aux := lz.2.2
    gauss_newton := true
    descent := self.descent }

/-- `AbstractGaussNewton.step`: linearize, run the line search with the
assembled options, downgrade a `nonlinear_max_steps_reached` status to
`successful`, and build the new state. -/
def AbstractGaussNewton.step (self : AbstractGaussNewton) (jac : JacFn)
    (search : SearchFn) (fn : ResFn) (y : Yv) (args : Argsv)
    (options : SolverOptions) (state : GaussNewtonState) (tags : Tags) :
    Yv × GaussNewtonState × Auxv :=
  let lz := jax_linearize jac (fun _y => fn _y args) y
  let f_val := sum_squares lz.1
  let line_sol :=
    search (_line_search_fn fn) self.line_search y args
      (self.step_options jac fn y args state) false
  let new_y := line_sol.value
  let result :=
    RESULTS.where (line_sol.result == RESULTS.nonlinear_max_steps_reached)
      RESULTS.successful line_sol.result
  (new_y,
    { step_size := line_sol.next_init
      diff := yvSub new_y y
      f_val := f_val
      f_prev := state.f_val
      result := result },
    lz.2.2)

/-- `GaussNewton.__init__(rtol, atol)` with the default `norm` argument
and a caller-supplied `linear_solver`: builds the concrete solver
configuration. -/
def GaussNewton.mkDefault (rtol atol : ℚ) (linear_solver : LinSolver) :
    AbstractGaussNewton :=
  { rtol := rtol
    atol := atol
    norm := max_norm
    descent := { norm := none, linear_solver := linear_solver }
    line_search := { learning_rate := FV.fin 1 } }

/-- Absolute homogeneity of a norm function over scalar multiples: this
is the defining property of the "configured norms" quantified over in
the spec. -/
def Homog (n : Yv → FV) : Prop :=
  ∀ (c : ℚ) (v : Yv), n (fvSmul c v) = fvMul (FV.fin |c|) (n v)

lemma fvMul_neg_div (s c : ℚ) (x : FV) :
    fvMul (fvNeg (FV.fin s)) (fvDiv x (FV.fin c)) =
      fvMul (FV.fin ((-s) / c)) x := by
  cases x with
  | fin a =>
    simp only [fvNeg, fvDiv, fvMul, FV.fin.injEq]
    ring
  | inf => rfl

lemma fvAbs_mul_fin (c : ℚ) (x : FV) :
    fvAbs (fvMul (FV.fin c) x) = fvMul (FV.fin |c|) (fvAbs x) := by
  cases x with
  | fin a => simp [fvMul, fvAbs, abs_mul]
  | inf => rfl

lemma fvMul_fin_max (m : ℚ) (hm : 0 ≤ m) (p q : FV) :
    fvMul (FV.fin m) (fvMax p q) =
      fvMax (fvMul (FV.fin m) p) (fvMul (FV.fin m) q) := by
  cases p <;> cases q <;> simp [fvMul, fvMax, mul_max_of_nonneg _ _ hm]

lemma max_norm_homog : Homog max_norm := by
  intro c v
  induction v with
  | nil => simp [max_norm, fvSmul, fvMul]
  | cons x t ih =>
    have h1 : max_norm (fvSmul c (x :: t)) =
        fvMax (fvAbs (fvMul (FV.fin c) x)) (max_norm (fvSmul c t)) := rfl
    have h2 : max_norm (x :: t) = fvMax (fvAbs x) (max_norm t) := rfl
    rw [h1, h2, ih, fvAbs_mul_fin, ← fvMul_fin_max |c| (abs_nonneg c)]

/-- C9: for every step size and args, calling `NewtonDescent.__call__`
with an options mapping that lacks the key `vector` fails with a raised
error (modelled as `Except.error`), regardless of which other options
are present. -/
theorem newton_descent_missing_vector_raises (d : NewtonDescent)
    (step_size : FV) (args : Argsv) (options : LSOptions)
    (hv : options.vector = none) :
    d.call step_size args options = Except.error "KeyError: vector" := by
  simp [NewtonDescent.call, NewtonDescent.solveNewton, hv]

/-- C9 witness. -/
theorem newton_descent_missing_vector_raises_witness :
    NewtonDescent.call
        { norm := none, linear_solver := fun _ v => (v, RESULTS.successful) }
        (FV.fin 1) []
        { init_step_size := FV.fin 1, vector := none,
          operator := some ⟨id⟩, operator_inv := some ⟨id⟩,
          f0 := FV.fin 0, aux := [], gauss_newton := true,
          descent :=
            { norm := none,
              linear_solver := fun _ v => (v, RESULTS.successful) } } =
      Except.error "KeyError: vector" :=
  newton_descent_missing_vector_raises _ _ _ _ rfl

/-- C4: with `vector` present but neither `operator` nor `operator_inv`
available (absent or `None`), `NewtonDescent.__call__` raises a
configuration error rather than returning a step or status. -/
theorem newton_descent_no_operator_raises (d : NewtonDescent)
    (step_size : FV) (args : Argsv) (options : LSOptions) (v : Outv)
    (hv : options.vector = some v) (hoi : options.operator_inv = none)
    (hop : options.operator = none) :
    d.call step_size args options =
      Except.error
        "At least one of operator or operator_inv must be passed to NewtonDescent via options." := by
  simp [NewtonDescent.call, NewtonDescent.solveNewton, hv, hoi, hop]

/-- C4 witness. -/
theorem newton_descent_no_operator_raises_witness :
    NewtonDescent.call
        { norm := none, linear_solver := fun _ v => (v, RESULTS.successful) }
        (FV.fin 1) []
        { init_step_size := FV.fin 1, vector := some [FV.fin 2],
          operator := none, operator_inv := none,
          f0 := FV.fin 0, aux := [], gauss_newton := true,
          descent :=
            { norm := none,
              linear_solver := fun _ v => (v, RESULTS.successful) } } =
      Except.error
        "At least one of operator or operator_inv must be passed to NewtonDescent via options." :=
  newton_descent_no_operator_raises _ _ _ _ [FV.fin 2] rfl rfl rfl

/-- C8: with a non-`None` `operator_inv`, `NewtonDescent.__call__`
applies it directly to the vector (the result does not depend on the
linear solver), reports `successful`, and with no norm configured
returns the step `-step_size * newton` elementwise. -/
theorem newton_descent_operator_inv_direct (d : NewtonDescent)
    (step_size : FV) (args : Argsv) (options : LSOptions) (v : Outv)
    (oinv : Op) (hv : options.vector = some v)
    (hoi : options.operator_inv = some oinv) (hn : d.norm = none) :
    d.call step_size args options =
      Except.ok ((oinv.mv v).map (fun x => fvMul (fvNeg step_size) x),
        RESULTS.successful) := by
  simp [NewtonDescent.call, NewtonDescent.solveNewton, NewtonDescent.scale,
    hv, hoi, hn]

/-- C8 witness. -/
theorem newton_descent_operator_inv_direct_witness :
    NewtonDescent.call
        { norm := none, linear_solver := fun _ v => (v, RESULTS.successful) }
        (FV.fin 2) []
        { init_step_size := FV.fin 1, vector := some [FV.fin 3],
          operator := none, operator_inv := some ⟨fun v => v⟩,
          f0 := FV.fin 0, aux := [], gauss_newton := true,
          descent :=
            { norm := none,
              linear_solver := fun _ v => (v, RESULTS.successful) } } =
      Except.ok ([FV.fin (-6)], RESULTS.successful) := by
  have h := newton_descent_operator_inv_direct
    { norm := none, linear_solver := fun _ v => (v, RESULTS.successful) }
    (FV.fin 2) []
    { init_step_size := FV.fin 1, vector := some [FV.fin 3],
      operator := none, operator_inv := some ⟨fun v => v⟩,
      f0 := FV.fin 0, aux := [], gauss_newton := true,
      descent :=
        { norm := none,
          linear_solver := fun _ v => (v, RESULTS.successful) } }
    [FV.fin 3] ⟨fun v => v⟩ rfl rfl rfl
  rw [h]
  norm_num [fvMul, fvNeg]

/-- C3: when a norm `n` (absolutely homogeneous) is configured and the
solved direction `newton` has positive finite norm `c`, the step
returned for a positive finite step size `s` satisfies
`n(step) = step_size`, independent of the magnitude of `newton`. -/
theorem newton_descent_norm_step (d : NewtonDescent) (n : Yv → FV)
    (s c : ℚ) (args : Argsv) (options : LSOptions) (step newton : Yv)
    (res dres : RESULTS) (hnorm : d.norm = some n) (hhom : Homog n)
    (hcall : d.call (FV.fin s) args options = Except.ok (step, res))
    (hdir : d.solveNewton options = Except.ok (newton, dres))
    (hne : n newton = FV.fin c) (hc : 0 < c) (hs : 0 < s) :
    n step = FV.fin s := by
  simp only [NewtonDescent.call, hdir, Except.ok.injEq, Prod.mk.injEq]
    at hcall
  obtain ⟨h1, h2⟩ := hcall
  have hscale : d.scale (FV.fin s) newton = fvSmul ((-s) / c) newton := by
    simp [NewtonDescent.scale, hnorm, hne, fvSmul, List.map_map,
      Function.comp, fvMul_neg_div]
  calc n step = fvMul (FV.fin |(-s) / c|) (FV.fin c) := by
        rw [← h1, hscale, hhom, hne]
    _ = FV.fin s := by
        show FV.fin (|(-s) / c| * c) = FV.fin s
        rw [abs_div, abs_neg, abs_of_pos hs, abs_of_pos hc,
          div_mul_cancel₀ s (ne_of_gt hc)]

/-- C3 witness. -/
theorem newton_descent_norm_step_witness :
    max_norm [FV.fin (-3)] = FV.fin 3 :=
  newton_descent_norm_step
    { norm := some max_norm,
      linear_solver := fun _ v => (v, RESULTS.successful) }
    max_norm 3 2 []
    { init_step_size := FV.fin 1, vector := some [FV.fin 2],
      operator := none, operator_inv := some ⟨fun v => v⟩,
      f0 := FV.fin 0, aux := [], gauss_newton := true,
      descent :=
        { norm := none,
          linear_solver := fun _ v => (v, RESULTS.successful) } }
    [FV.fin (-3)] [FV.fin 2] RESULTS.successful RESULTS.successful
    rfl max_norm_homog
    (by norm_num [NewtonDescent.call, NewtonDescent.solveNewton,
      NewtonDescent.scale, max_norm, fvAbs, fvMax, fvDiv, fvMul, fvNeg])
    rfl
    (by norm_num [max_norm, fvAbs, fvMax])
    (by norm_num) (by norm_num)

/-- C5: `AbstractGaussNewton.init` returns the state with
`step_size = 1`, `diff` a same-shape tree filled with `+inf`, `f_val`
and `f_prev` infinite, and `result = successful`; `fn` is never
evaluated and the contents of `options` and `aux_struct` are ignored
(the right-hand side mentions none of them). -/
theorem gauss_newton_init_state (self : AbstractGaussNewton) (fn : ResFn)
    (y : Yv) (args : Argsv) (options : SolverOptions) (f_struct : SDStruct)
    (aux_struct : SDStruct) (tags : Tags) :
    self.init fn y args options f_struct aux_struct tags =
      { step_size := FV.fin 1
        diff := tree_full_like y FV.inf
        f_val := FV.inf
        f_prev := FV.inf
        result := RESULTS.successful } ∧
    tree_full_like y FV.inf = List.replicate y.length FV.inf :=
  ⟨rfl, by simp [tree_full_like, List.map_const']⟩

/-- A concrete residual function for counterexamples: its auxiliary
output at every point is `[7]`. -/
def cexFn : ResFn := fun y _ => (y, [FV.fin 7])

/-- A concrete differentiation collaborator: the identity linear map. -/
def cexJac : JacFn := fun _ _ => id

/-- A concrete line-search collaborator whose accepted evaluation
reports the auxiliary value `[9]`. -/
def cexSearch : SearchFn := fun _ _ _ _ _ _ =>
  { value := [FV.fin 0], result := RESULTS.successful,
    next_init := FV.fin 1, aux := [FV.fin 9] }

/-- A concrete solver configuration. -/
def cexSolver : AbstractGaussNewton :=
  { rtol := 1, atol := 1, norm := max_norm,
    descent :=
      { norm := none, linear_solver := fun _ v => (v, RESULTS.successful) },
    line_search := { learning_rate := FV.fin 1 } }

/-- A concrete incoming state. -/
def cexState : GaussNewtonState :=
  { step_size := FV.fin 1, diff := [FV.fin 0], f_val := FV.fin 5,
    f_prev := FV.inf, result := RESULTS.successful }

/-- C1 counterexample: at this concrete input, the third component
returned by `AbstractGaussNewton.step` is `[7]`, the auxiliary value of
the initial linearization of `fn` at `y`, while the accepted
line-search evaluation (`line_sol`) reports the auxiliary value `[9]`;
the two differ, so the returned auxiliary output is not `line_sol`'s. -/
theorem step_aux_counterexample :
    (cexSolver.step cexJac cexSearch cexFn [FV.fin 2] [] [] cexState
        []).2.2 = [FV.fin 7] ∧
    (cexSearch (_line_search_fn cexFn) cexSolver.line_search [FV.fin 2] []
        (cexSolver.step_options cexJac cexFn [FV.fin 2] [] cexState)
        false).aux = [FV.fin 9] ∧
    (cexSolver.step cexJac cexSearch cexFn [FV.fin 2] [] [] cexState
        []).2.2 ≠
      (cexSearch (_line_search_fn cexFn) cexSolver.line_search [FV.fin 2] []
        (cexSolver.step_options cexJac cexFn [FV.fin 2] [] cexState)
        false).aux :=
  ⟨rfl, rfl, by decide⟩

/-- C1 (amended): for every residual function, point, args and state,
the auxiliary output returned as the third component of
`AbstractGaussNewton.step` is the auxiliary value produced by the
initial linearization of `fn` at `y` (that is, `fn(y, args)`'s aux),
not the auxiliary value of the accepted line-search evaluation. -/
theorem step_aux_is_linearization_aux (self : AbstractGaussNewton)
    (jac : JacFn) (search : SearchFn) (fn : ResFn) (y : Yv) (args : Argsv)
    (options : SolverOptions) (state : GaussNewtonState) (tags : Tags) :
    (self.step jac search fn y args options state tags).2.2 =
      (fn y args).2 := rfl

/-- C2: the status stored in the new state is `successful` when the
line-search status is `nonlinear_max_steps_reached`, and is the
line-search status unchanged for every other status. -/
theorem step_result_downgrade (self : AbstractGaussNewton) (jac : JacFn)
    (search : SearchFn) (fn : ResFn) (y : Yv) (args : Argsv)
    (options : SolverOptions) (state : GaussNewtonState) (tags : Tags)
    (s : RESULTS)
    (hres : (search (_line_search_fn fn) self.line_search y args
        (self.step_options jac fn y args state) false).result = s) :
    (self.step jac search fn y args options state tags).2.1.result =
      if s = RESULTS.nonlinear_max_steps_reached then RESULTS.successful
      else s := by
  simp [AbstractGaussNewton.step, RESULTS.where, hres]

/-- A concrete line-search collaborator that exhausts its internal
nonlinear step budget. -/
def cexSearchBudget : SearchFn := fun _ _ _ _ _ _ =>
  { value := [FV.fin 0], result := RESULTS.nonlinear_max_steps_reached,
    next_init := FV.fin 2, aux := [FV.fin 9] }

/-- C2 witness. -/
theorem step_result_downgrade_witness :
    (cexSolver.step cexJac cexSearchBudget cexFn [FV.fin 2] [] [] cexState
        []).2.1.result =
      if RESULTS.nonlinear_max_steps_reached =
          RESULTS.nonlinear_max_steps_reached then RESULTS.successful
      else RESULTS.nonlinear_max_steps_reached :=
  step_result_downgrade cexSolver cexJac cexSearchBudget cexFn [FV.fin 2]
    [] [] cexState [] RESULTS.nonlinear_max_steps_reached rfl

/-- C6: when the descent strategy executes during a step, exactly one
of `operator`/`operator_inv` is available: `step` binds `operator` to
the freshly built linear operator and `operator_inv` to `None`, and
`NewtonDescent` treats a `None` `operator_inv` as absent, solving with
`operator` through the linear-solve collaborator instead. -/
theorem step_operator_exclusive (self : AbstractGaussNewton) (jac : JacFn)
    (fn : ResFn) (y : Yv) (args : Argsv) (state : GaussNewtonState)
    (d : NewtonDescent) (opts : LSOptions) (v : Outv) (op : Op)
    (hv : opts.vector = some v) (hoi : opts.operator_inv = none)
    (hop : opts.operator = some op) :
    (self.step_options jac fn y args state).operator =
      some ⟨(jax_linearize jac (fun _y => fn _y args) y).2.1⟩ ∧
    (self.step_options jac fn y args state).operator_inv = none ∧
    d.solveNewton opts =
      Except.ok ((lx_linear_solve op v d.linear_solver).1,
        RESULTS.promote (lx_linear_solve op v d.linear_solver).2) := by
  refine ⟨rfl, rfl, ?_⟩
  simp [NewtonDescent.solveNewton, hv, hoi, hop]

/-- C6 witness. -/
theorem step_operator_exclusive_witness :
    (cexSolver.step_options cexJac cexFn [FV.fin 2] [] cexState).operator =
      some ⟨(jax_linearize cexJac (fun _y => cexFn _y []) [FV.fin 2]).2.1⟩ ∧
    (cexSolver.step_options cexJac cexFn [FV.fin 2] []
        cexState).operator_inv = none ∧
    NewtonDescent.solveNewton
        { norm := none, linear_solver := fun _ v => (v, RESULTS.successful) }
        { init_step_size := FV.fin 1, vector := some [FV.fin 3],
          operator := some ⟨id⟩, operator_inv := none,
          f0 := FV.fin 0, aux := [], gauss_newton := true,
          descent :=
            { norm := none,
              linear_solver := fun _ v => (v, RESULTS.successful) } } =
      Except.ok
        ((lx_linear_solve ⟨id⟩ [FV.fin 3]
            (fun _ v => (v, RESULTS.successful))).1,
          RESULTS.promote
            (lx_linear_solve ⟨id⟩ [FV.fin 3]
              (fun _ v => (v, RESULTS.successful))).2) :=
  step_operator_exclusive cexSolver cexJac cexFn [FV.fin 2] [] cexState
    { norm := none, linear_solver := fun _ v => (v, RESULTS.successful) }
    { init_step_size := FV.fin 1, vector := some [FV.fin 3],
      operator := some ⟨id⟩, operator_inv := none,
      f0 := FV.fin 0, aux := [], gauss_newton := true,
      descent :=
        { norm := none,
          linear_solver := fun _ v => (v, RESULTS.successful) } }
    [FV.fin 3] ⟨id⟩ rfl rfl rfl

/-- C7: the new state built by `AbstractGaussNewton.step` records the
line search's recommended next initial step size, the elementwise
difference `new_y - y`, this iteration's sum-of-squared-residuals of
`fn` at `y`, the incoming state's `f_val` as `f_prev`, and the
possibly-downgraded line-search status; the first component returned is
the line search's accepted iterate. -/
theorem step_new_state_fields (self : AbstractGaussNewton) (jac : JacFn)
    (search : SearchFn) (fn : ResFn) (y : Yv) (args : Argsv)
    (options : SolverOptions) (state : GaussNewtonState) (tags : Tags) :
    (self.step jac search fn y args options state tags).1 =
      (search (_line_search_fn fn) self.line_search y args
        (self.step_options jac fn y args state) false).value ∧
    (self.step jac search fn y args options state tags).2.1 =
      { step_size := (search (_line_search_fn fn) self.line_search y args
          (self.step_options jac fn y args state) false).next_init
        diff := yvSub
          (search (_line_search_fn fn) self.line_search y args
            (self.step_options jac fn y args state) false).value y
        f_val := sum_squares (fn y args).1
        f_prev := state.f_val
        result := RESULTS.where
          ((search (_line_search_fn fn) self.line_search y args
              (self.step_options jac fn y args state) false).result ==
            RESULTS.nonlinear_max_steps_reached)
          RESULTS.successful
          (search (_line_search_fn fn) self.line_search y args
            (self.step_options jac fn y args state) false).result } :=
  ⟨rfl, rfl⟩

/-- C10: `GaussNewton(rtol, atol)` with a caller-supplied linear solver
defaults its norm to the maximum-absolute-value norm, its descent to a
`NewtonDescent` with that linear solver and no norm, and its line
search to the fixed-step-size line search with step size `1.0`. -/
theorem gauss_newton_default_config (rtol atol : ℚ)
    (linear_solver : LinSolver) :
    (GaussNewton.mkDefault rtol atol linear_solver).norm = max_norm ∧
    (GaussNewton.mkDefault rtol atol linear_solver).descent =
      { norm := none, linear_solver := linear_solver } ∧
    (GaussNewton.mkDefault rtol atol linear_solver).line_search =
      { learning_rate := FV.fin 1 } ∧
    (GaussNewton.mkDefault rtol atol linear_solver).rtol = rtol ∧
    (GaussNewton.mkDefault rtol atol linear_solver).atol = atol :=
  ⟨rfl, rfl, rfl, rfl, rfl⟩

end Optimistix
